import Mathlib

/- Verification development for the feature-flag backend repository.
   Part 1 embeds src/features/organization.js (the only executable source file)
   as pure route/handler definitions. Part 2 models the flag-evaluation core,
   the bucketing function and the cache-consistency protocol, which the design
   documents describe but which have no implementation under src/; those
   definitions are marked `Modelled from the spec:`. -/

namespace OrgRouter

/-- HTTP methods used by the organization router and by the documented
organization endpoints. -/
inductive Method where
  | get
  | post
  | patch
  | delete
deriving DecidableEq, BEq

/-- A request as the organization handlers can observe it: the path
parameters bound by the matched route, and the raw request body. -/
structure Request where
  params : List (String × String)
  body : String

/-- A response: HTTP status code and the string sent as the body. -/
structure Response where
  status : Nat
  body : String
deriving DecidableEq

/-- Reading a path parameter, as `req.params.name` behaves in the source:
a bound parameter yields its value; an unbound one is `undefined`, which a
JavaScript template literal renders as the string "undefined". -/
def Request.param (req : Request) (name : String) : String :=
  match req.params.lookup name with
  | some v => v
  | none => "undefined"

/-- One segment of a route pattern: a literal, or a named parameter. -/
inductive PathSeg where
  | lit (s : String)
  | param (name : String)

/-- A registered route: method, path pattern, handler. -/
structure Route where
  method : Method
  pattern : List PathSeg
  handler : Request → Response

/-- Handler of GET /api/v1/organizations (organization.js lines 4-6). -/
def listOrganizationsHandler (_req : Request) : Response :=
  ⟨300, "get organization"⟩

/-- Handler of POST /api/v1/organizations (organization.js lines 8-10). -/
def createOrganizationHandler (_req : Request) : Response :=
  ⟨300, "create organization"⟩

/-- Handler of GET /api/v1/organizations/:organizationId
(organization.js lines 12-15). -/
def getOrganizationByIdHandler (req : Request) : Response :=
  let organizationId := req.param "organizationId"
  ⟨300, "API underconstruction " ++ organizationId⟩

/-- Handler of PATCH /api/v1/organizations (organization.js lines 17-19);
note the registered path has no :organizationId parameter. -/
def updateOrganizationHandler (_req : Request) : Response :=
  ⟨300, "update organization"⟩

/-- The base path segments /api/v1/organizations. -/
def orgBasePath : List PathSeg :=
  [.lit "api", .lit "v1", .lit "organizations"]

/-- The organization router: the four routes registered in
src/features/organization.js, in registration order. -/
def organizationRouter : List Route :=
  [ ⟨.get, orgBasePath, listOrganizationsHandler⟩,
    ⟨.post, orgBasePath, createOrganizationHandler⟩,
    ⟨.get, orgBasePath ++ [.param "organizationId"], getOrganizationByIdHandler⟩,
    ⟨.patch, orgBasePath, updateOrganizationHandler⟩ ]

/-- Whether one pattern segment accepts one concrete path segment. -/
def segAccepts : PathSeg → String → Bool
  | .lit s, t => s == t
  | .param _, _ => true

/-- Whether a route pattern matches a concrete path, segmentwise;
lengths must agree. -/
def patternMatches : List PathSeg → List String → Bool
  | [], [] => true
  | p :: ps, t :: ts => segAccepts p t && patternMatches ps ts
  | _, _ => false

/-- Whether a route handles a request with the given method and path. -/
def routeMatches (m : Method) (path : List String) (r : Route) : Bool :=
  r.method == m && patternMatches r.pattern path

end OrgRouter

namespace FlagCore

/-- Modelled from the spec: the tagged-variant value type over
string, number, boolean, array and date (design notes: dynamic,
loosely-typed condition values). The number/date payloads are modelled
as integers. Missing from src: the whole evaluation core. -/
inductive Value where
  | str (s : String)
  | num (n : Int)
  | boolean (b : Bool)
  | arr (xs : List Value)
  | date (t : Int)

mutual

/-- Modelled from the spec: structural equality on values, the total
comparison underlying the equals / in / contains operators. -/
def valueEq : Value → Value → Bool
  | .str a, .str b => a == b
  | .num a, .num b => a == b
  | .boolean a, .boolean b => a == b
  | .date a, .date b => a == b
  | .arr a, .arr b => listValueEq a b
  | _, _ => false

/-- Modelled from the spec: elementwise equality of value arrays. -/
def listValueEq : List Value → List Value → Bool
  | [], [] => true
  | a :: as_, b :: bs => valueEq a b && listValueEq as_ bs
  | _, _ => false

end

/-- Modelled from the spec: the condition operators of the data model. -/
inductive Operator where
  | equals
  | notEquals
  | inList
  | notInList
  | contains
  | greaterThan
  | lessThan
  | regexMatch
  | segmentMatch
  | semverCompare
deriving DecidableEq

/-- Modelled from the spec: a condition is an attribute name, an operator
and a comparison value (a list-valued comparison is an array value). -/
structure Condition where
  attr : String
  op : Operator
  value : Value

/-- Modelled from the spec: a variation, one possible served value. -/
structure Variation where
  id : String
  value : Value

/-- Modelled from the spec: a rule target is a fixed variation or a
percentage-rollout distribution of (variation, basis-point width) pairs. -/
inductive Target where
  | fixed (v : Variation)
  | rollout (dist : List (Variation × Nat))

/-- Modelled from the spec: a rule is an AND-combined condition list plus
a target. -/
structure Rule where
  conditions : List Condition
  target : Target

/-- Modelled from the spec: a named reusable segment, a key plus rules
OR-combined across the list. -/
structure Segment where
  key : String
  rules : List Rule

/-- Modelled from the spec: an evaluation context, the caller-supplied
attribute map plus the required stable key used for bucketing. -/
structure Context where
  key : String
  attributes : List (String × Value)

/-- Modelled from the spec: attribute lookup in a context. -/
def Context.lookup (ctx : Context) (attr : String) : Option Value :=
  ctx.attributes.lookup attr

/-- Modelled from the spec: one flag's configuration in one environment:
key, enabled bit, typed static default, ordered rules, optional flag-level
default rollout, monotonic version, last-modified timestamp. -/
structure FlagConfiguration where
  flagKey : String
  enabled : Bool
  defaultValue : Value
  rules : List Rule
  defaultRollout : Option (List (Variation × Nat))
  version : Nat
  lastModified : Nat

/-- Modelled from the spec: the evaluation reason codes. -/
inductive Reason where
  | RULE_MATCH
  | PERCENTAGE_ROLLOUT
  | DEFAULT
  | FLAG_DISABLED
  | ERROR
deriving DecidableEq

/-- Modelled from the spec: an evaluation result: value served, variation
identifier (none for default), flag version used, reason code. -/
structure EvaluationResult where
  value : Value
  variationId : Option String
  flagVersion : Nat
  reason : Reason

/-- Modelled from the spec: the error taxonomy absorbed at the evaluation
boundary (configuration error from a segment cycle, absent segment,
malformed rollout); outOfFuel is the embedding's recursion bound, set high
enough that the visited-set check always fires first on real stores. -/
inductive EvalError where
  | configurationError
  | segmentNotFound
  | malformedConfiguration
  | outOfFuel
deriving DecidableEq

/-- Modelled from the spec: one step of a 32-bit multiplicative string
hash; overflow is explicit modulo 2^32. -/
def hashStep (h : Nat) (c : Nat) : Nat :=
  (h * 31 + c) % 4294967296

/-- Modelled from the spec: a well-distributed deterministic hash of a
string, folded over its characters (the spec fixes no particular hash). -/
def strHash (s : String) : Nat :=
  s.data.foldl (fun h c => hashStep h c.toNat) 2166136261

/-- Modelled from the spec: the bucketing function — hash the
concatenation of flagKey, contextKey and salt, reduce modulo 10000 to a
basis-point bucket. -/
def bucket (flagKey contextKey salt : String) : Nat :=
  strHash (flagKey ++ contextKey ++ salt) % 10000

/-- Modelled from the spec: numeric view of a value for ordered
comparisons; numeric-looking strings are coerced, dates compare by
timestamp; other shapes have no numeric view. -/
def asNum : Value → Option Int
  | .num n => some n
  | .str s => s.toInt?
  | .date t => some t
  | _ => none

/-- Modelled from the spec: substring test on strings, used by the
contains operator (and standing in for the unspecified regex dialect). -/
def strContainsSub (s pat : String) : Bool :=
  (List.range (s.length + 1)).any (fun i => pat.data.isPrefixOf (s.data.drop i))

/-- Modelled from the spec: parse a dotted major.minor.patch version. -/
def parseSemver (s : String) : Option (Nat × Nat × Nat) :=
  match s.split (· == '.') with
  | [a, b, c] =>
    match a.toNat?, b.toNat?, c.toNat? with
    | some x, some y, some z => some (x, y, z)
    | _, _, _ => none
  | _ => none

/-- Modelled from the spec: the pure (segment-free) operator semantics on
an attribute value found in the context; every type-incompatible
application evaluates to non-match, never fails. -/
def pureOpMatch (op : Operator) (attrVal condVal : Value) : Bool :=
  match op with
  | .equals => valueEq attrVal condVal
  | .notEquals => !valueEq attrVal condVal
  | .inList =>
    match condVal with
    | .arr xs => xs.any (fun x => valueEq attrVal x)
    | _ => false
  | .notInList =>
    match condVal with
    | .arr xs => !(xs.any (fun x => valueEq attrVal x))
    | _ => false
  | .contains =>
    match attrVal, condVal with
    | .str s, .str t => strContainsSub s t
    | .arr xs, v => xs.any (fun x => valueEq x v)
    | _, _ => false
  | .greaterThan =>
    match asNum attrVal, asNum condVal with
    | some a, some b => decide (b < a)
    | _, _ => false
  | .lessThan =>
    match asNum attrVal, asNum condVal with
    | some a, some b => decide (a < b)
    | _, _ => false
  | .regexMatch =>
    match attrVal, condVal with
    | .str s, .str pat => strContainsSub s pat
    | _, _ => false
  | .semverCompare =>
    match attrVal, condVal with
    | .str s, .str t =>
      match parseSemver s, parseSemver t with
      | some a, some b => a == b
      | _, _ => false
    | _, _ => false
  | .segmentMatch => false

/-- Modelled from the spec: evaluate one condition against a context,
given a resolver for segment-match; a missing attribute yields non-match
for every operator, a non-string segment reference yields non-match, and
all non-segment operators are pure and never produce an error. -/
def condMatchesWith (resolve : String → Except EvalError Bool)
    (ctx : Context) (c : Condition) : Except EvalError Bool :=
  match ctx.lookup c.attr with
  | none => .ok false
  | some attrVal =>
    match c.op with
    | .segmentMatch =>
      match c.value with
      | .str segKey => resolve segKey
      | _ => .ok false
    | op => .ok (pureOpMatch op attrVal c.value)

/-- Modelled from the spec: AND-evaluation of a condition list, stopping
at the first non-match, propagating resolver errors. -/
def evalConds (condEval : Condition → Except EvalError Bool) :
    List Condition → Except EvalError Bool
  | [] => .ok true
  | c :: cs =>
    match condEval c with
    | .error e => .error e
    | .ok b => if b then evalConds condEval cs else .ok false

/-- Modelled from the spec: OR-evaluation of a rule list (a segment
matches when some rule's conditions all match). -/
def evalRulesAny (condEval : Condition → Except EvalError Bool) :
    List Rule → Except EvalError Bool
  | [] => .ok false
  | r :: rs =>
    match evalConds condEval r.conditions with
    | .error e => .error e
    | .ok m => if m then .ok true else evalRulesAny condEval rs

/-- Modelled from the spec: the segment resolver. The visited set of
segment keys is threaded through recursion; an already-visited key fails
fast with a configuration error before any lookup; an absent segment is a
not-found error. The fuel argument only bounds the embedding's recursion
depth. -/
def isMemberF : Nat → List Segment → Context → List String → String →
    Except EvalError Bool
  | 0, _, _, _, _ => .error .outOfFuel
  | fuel + 1, segs, ctx, visited, segKey =>
    if visited.contains segKey then .error .configurationError
    else
      match segs.find? (fun s => s.key == segKey) with
      | none => .error .segmentNotFound
      | some seg =>
        evalRulesAny
          (fun c =>
            condMatchesWith (fun k => isMemberF fuel segs ctx (segKey :: visited) k) ctx c)
          seg.rules

/-- Modelled from the spec: initial recursion budget, larger than the
longest possible chain of distinct segment keys, so that on any store the
visited-set check fires before the budget can run out. -/
def initialFuel (segs : List Segment) : Nat :=
  segs.length + 1

/-- Modelled from the spec: isMember(segmentKey, context, visited), the
segment resolver entry point over a segment store. -/
def isMember (segs : List Segment) (ctx : Context) (visited : List String)
    (segKey : String) : Except EvalError Bool :=
  isMemberF (initialFuel segs) segs ctx visited segKey

/-- Modelled from the spec: condition evaluation at flag level: segment
references resolve against the store with an empty visited set. -/
def flagCondEval (segs : List Segment) (ctx : Context) (c : Condition) :
    Except EvalError Bool :=
  condMatchesWith (isMember segs ctx []) ctx c

/-- Modelled from the spec: matches(rule, context) — the rule matches iff
every condition matches (AND semantics). -/
def ruleMatches (segs : List Segment) (ctx : Context) (r : Rule) :
    Except EvalError Bool :=
  evalConds (flagCondEval segs ctx) r.conditions

/-- Modelled from the spec: total basis-point width of a distribution. -/
def sumWeights (dist : List (Variation × Nat)) : Nat :=
  dist.foldl (fun acc p => acc + p.2) 0

/-- Modelled from the spec: select the variation whose cumulative
basis-point range contains the bucket, in declared order. -/
def selectVariation : List (Variation × Nat) → Nat → Option Variation
  | [], _ => none
  | (v, w) :: rest, b => if b < w then some v else selectVariation rest (b - w)

/-- Modelled from the spec: resolve a percentage rollout for a context:
re-check that widths sum to 10000 (malformed configuration otherwise),
bucket the context with the given salt, serve the selected variation with
reason PERCENTAGE_ROLLOUT. -/
def resolveRollout (cfg : FlagConfiguration) (ctx : Context) (salt : String)
    (dist : List (Variation × Nat)) : Except EvalError EvaluationResult :=
  if sumWeights dist ≠ 10000 then .error .malformedConfiguration
  else
    match selectVariation dist (bucket cfg.flagKey ctx.key salt) with
    | some v => .ok ⟨v.value, some v.id, cfg.version, .PERCENTAGE_ROLLOUT⟩
    | none => .error .malformedConfiguration

/-- Modelled from the spec: resolve a matched rule's target — a fixed
variation is returned with reason RULE_MATCH; a rollout buckets with a
salt derived from the flag key and the rule index. -/
def resolveTarget (cfg : FlagConfiguration) (ctx : Context) (idx : Nat)
    (r : Rule) : Except EvalError EvaluationResult :=
  match r.target with
  | .fixed v => .ok ⟨v.value, some v.id, cfg.version, .RULE_MATCH⟩
  | .rollout dist =>
    resolveRollout cfg ctx (cfg.flagKey ++ "." ++ toString idx) dist

/-- Modelled from the spec: the rule-iteration phase of the Evaluation
Engine: rules in list order, first match wins; if none matches, the
flag-level default rollout applies when configured, else the static
default with reason DEFAULT. -/
def evaluateRules (segs : List Segment) (cfg : FlagConfiguration)
    (ctx : Context) : List Rule → Nat → Except EvalError EvaluationResult
  | [], _ =>
    match cfg.defaultRollout with
    | some dist => resolveRollout cfg ctx (cfg.flagKey ++ ".default") dist
    | none => .ok ⟨cfg.defaultValue, none, cfg.version, .DEFAULT⟩
  | r :: rs, idx =>
    match ruleMatches segs ctx r with
    | .error e => .error e
    | .ok m =>
      if m then resolveTarget cfg ctx idx r
      else evaluateRules segs cfg ctx rs (idx + 1)

/-- Modelled from the spec: the result a broken flag degrades to: the
static default value with reason ERROR. -/
def errorResult (cfg : FlagConfiguration) : EvaluationResult :=
  ⟨cfg.defaultValue, none, cfg.version, .ERROR⟩

/-- Modelled from the spec: evaluate(flagConfig, context) over a segment
store. A disabled flag returns its static default with FLAG_DISABLED;
every evaluation error is absorbed at this boundary and converted to the
static default with reason ERROR; the result type is total, so no
exception can propagate to the caller. -/
def evaluate (segs : List Segment) (cfg : FlagConfiguration)
    (ctx : Context) : EvaluationResult :=
  if cfg.enabled then
    match evaluateRules segs cfg ctx cfg.rules 0 with
    | .ok res => res
    | .error _ => errorResult cfg
  else ⟨cfg.defaultValue, none, cfg.version, .FLAG_DISABLED⟩

/-- Modelled from the spec: whether a segment directly references another
segment key through a segment-match condition in one of its rules. -/
def referencesSeg (s : Segment) (k : String) : Bool :=
  s.rules.any (fun r =>
    r.conditions.any (fun c =>
      c.op == .segmentMatch && valueEq c.value (.str k)))

/-- Modelled from the spec: the per-entry cache state machine of the
Versioned Configuration Store; FRESH and STALE entries carry the version
last received. -/
inductive EntryState where
  | ABSENT
  | LOADING
  | FRESH (version : Nat)
  | STALE (version : Nat)
deriving DecidableEq

/-- Modelled from the spec: receipt of a change notification with version
v: a FRESH entry at version n moves to FRESH v only when v is strictly
greater than n; out-of-order or duplicate notifications are idempotently
ignored. Only the FRESH transition is specified; other states are left
unchanged by a bare notification. -/
def applyNotification (s : EntryState) (v : Nat) : EntryState :=
  match s with
  | .FRESH n => if n < v then .FRESH v else .FRESH n
  | other => other

/-- A concrete context with key u1 and one string attribute k, used by
concrete evaluations below. -/
def ctxK : Context :=
  ⟨"u1", [("k", .str "x")]⟩

/-- A rule whose single condition references segment A. -/
def ruleSegA : Rule :=
  ⟨[⟨"k", .segmentMatch, .str "A"⟩], .fixed ⟨"on", .str "on"⟩⟩

/-- Segment A, whose only rule references segment B. -/
def segA : Segment :=
  ⟨"A", [⟨[⟨"k", .segmentMatch, .str "B"⟩], .fixed ⟨"on", .str "on"⟩⟩]⟩

/-- Segment B, whose only rule references segment A (closing the cycle). -/
def segB : Segment :=
  ⟨"B", [ruleSegA]⟩

/-- A segment store containing the A-B reference cycle. -/
def cyclicStore : List Segment :=
  [segA, segB]

/-- An enabled flag whose first rule references the cyclic segment A. -/
def flagWithCycleRule : FlagConfiguration :=
  ⟨"fc", true, .str "off", [ruleSegA], none, 9, 0⟩

/-- An enabled flag with no rules at all, over any store. -/
def flagNoRules : FlagConfiguration :=
  ⟨"fn", true, .str "off", [], none, 9, 0⟩

/-- An enabled flag whose rule references a segment absent from the
store, so its evaluation produces a not-found error. -/
def flagMissingSeg : FlagConfiguration :=
  ⟨"fm", true, .str "off", [⟨[⟨"k", .segmentMatch, .str "nosuch"⟩], .fixed ⟨"on", .str "on"⟩⟩],
   none, 7, 0⟩

/-- An always-matching rule (no conditions) serving variation on. -/
def ruleAlwaysOn : Rule :=
  ⟨[], .fixed ⟨"on", .str "on"⟩⟩

/-- An enabled flag carrying the always-matching rule twice. -/
def flagTwoMatches : FlagConfiguration :=
  ⟨"ft", true, .str "off", [ruleAlwaysOn, ruleAlwaysOn], none, 5, 0⟩

end FlagCore

open OrgRouter FlagCore

/- Shared helper lemmas (not tied to any single claim). -/

/-- Whenever the rule-iteration phase of an enabled flag produces an
error, the evaluation boundary absorbs it into the static-default /
ERROR result. -/
theorem evaluate_absorbs_error (segs : List Segment) (cfg : FlagConfiguration)
    (ctx : FlagCore.Context) (e : EvalError) (hen : cfg.enabled = true)
    (he : evaluateRules segs cfg ctx cfg.rules 0 = .error e) :
    evaluate segs cfg ctx = errorResult cfg := by
  simp [FlagCore.evaluate, hen, he]

/-- Rules that evaluate to a non-match are skipped: the rule iteration
over a prefix of non-matching rules continues at the suffix with the
rule index advanced by the prefix length. -/
theorem evaluateRules_skip (segs : List Segment) (cfg : FlagConfiguration)
    (ctx : FlagCore.Context) (rest : List Rule) :
    ∀ pre : List Rule, (∀ r ∈ pre, ruleMatches segs ctx r = .ok false) →
      ∀ idx, evaluateRules segs cfg ctx (pre ++ rest) idx
        = evaluateRules segs cfg ctx rest (idx + pre.length) := by
  intro pre
  induction pre with
  | nil => intro _ idx; simp
  | cons r rs ih =>
    intro hpre idx
    have hr : ruleMatches segs ctx r = .ok false := hpre r (List.mem_cons_self r rs)
    have hrs : ∀ r' ∈ rs, ruleMatches segs ctx r' = .ok false :=
      fun r' h' => hpre r' (List.mem_cons_of_mem r h')
    rw [List.cons_append]
    show evaluateRules segs cfg ctx (r :: (rs ++ rest)) idx = _
    simp only [FlagCore.evaluateRules, hr]
    rw [ih hrs (idx + 1)]
    have harith : idx + 1 + rs.length = idx + (r :: rs).length := by
      rw [List.length_cons]; omega
    rw [harith]
    simp

/-- AND-evaluation of a condition list yields ok true exactly when every
condition evaluates to ok true. -/
theorem evalConds_ok_true_iff (f : Condition → Except EvalError Bool) :
    ∀ conds : List Condition,
      evalConds f conds = .ok true ↔ ∀ c ∈ conds, f c = .ok true := by
  intro conds
  induction conds with
  | nil => simp [FlagCore.evalConds]
  | cons c cs ih =>
    constructor
    · intro h
      cases hf : f c with
      | error e =>
        rw [FlagCore.evalConds, hf] at h
        exact absurd h (by simp)
      | ok b =>
        cases b with
        | false =>
          rw [FlagCore.evalConds, hf] at h
          exact absurd h (by simp)
        | true =>
          rw [FlagCore.evalConds, hf] at h
          simp only [if_true] at h
          intro c' hc'
          rcases List.mem_cons.mp hc' with rfl | hmem
          · exact hf
          · exact (ih.mp h) c' hmem
    · intro h
      have hc : f c = .ok true := h c (List.mem_cons_self c cs)
      have hcs : evalConds f cs = .ok true :=
        ih.mpr fun c' h' => h c' (List.mem_cons_of_mem c h')
      rw [FlagCore.evalConds, hc]
      simpa using hcs

/-- C1: for every flag configuration and context, evaluate is a total
function into EvaluationResult (so no exception can reach the caller),
and whenever the rule phase of an enabled flag produces any evaluation
error (malformed configuration, segment cycle, absent segment), the
result carries the flag's static default value with reason ERROR. -/
theorem evaluation_never_throws (segs : List Segment) (cfg : FlagConfiguration)
    (ctx : FlagCore.Context) (e : EvalError) (hen : cfg.enabled = true)
    (he : evaluateRules segs cfg ctx cfg.rules 0 = .error e) :
    evaluate segs cfg ctx = ⟨cfg.defaultValue, none, cfg.version, .ERROR⟩ :=
  evaluate_absorbs_error segs cfg ctx e hen he

/-- C1 witness: a flag whose rule references an absent segment evaluates
to its static default with reason ERROR. -/
theorem evaluation_never_throws_witness :
    evaluate [] flagMissingSeg ctxK = ⟨.str "off", none, 7, .ERROR⟩ :=
  evaluation_never_throws [] flagMissingSeg ctxK .segmentNotFound rfl rfl

/-- C2: bucket(flagKey, contextKey, salt) is an integer in [0, 10000)
and a deterministic function of exactly these three inputs: equal inputs
give equal buckets. -/
theorem bucket_in_range_deterministic (flagKey contextKey salt : String) :
    bucket flagKey contextKey salt < 10000
    ∧ ∀ k c s : String, k = flagKey → c = contextKey → s = salt →
        bucket k c s = bucket flagKey contextKey salt := by
  constructor
  · show strHash (flagKey ++ contextKey ++ salt) % 10000 < 10000
    exact Nat.mod_lt _ (by norm_num)
  · intro k c s hk hc hs
    rw [hk, hc, hs]

/-- C2 witness: the range and determinism facts at concrete inputs. -/
theorem bucket_in_range_deterministic_witness :
    bucket "new-checkout" "u1" "0" < 10000
    ∧ bucket "new-checkout" "u1" "0" = bucket "new-checkout" "u1" "0" :=
  ⟨(bucket_in_range_deterministic "new-checkout" "u1" "0").1,
   (bucket_in_range_deterministic "new-checkout" "u1" "0").2 "new-checkout" "u1" "0" rfl rfl rfl⟩

/-- C3: first match wins — for an enabled flag whose rule list is a
non-matching prefix followed by a matching rule, evaluation returns that
rule's resolved target (at its list index), whatever rules follow it;
in particular later matching rules have no effect on the result. -/
theorem first_match_wins (segs : List Segment) (cfg : FlagConfiguration)
    (ctx : FlagCore.Context) (pre : List Rule) (r : Rule) (res : EvaluationResult)
    (hen : cfg.enabled = true)
    (hpre : ∀ r' ∈ pre, ruleMatches segs ctx r' = .ok false)
    (hr : ruleMatches segs ctx r = .ok true)
    (ht : resolveTarget cfg ctx pre.length r = .ok res) :
    ∀ rest : List Rule,
      evaluate segs { cfg with rules := pre ++ r :: rest } ctx = res := by
  intro rest
  set cfg' := { cfg with rules := pre ++ r :: rest } with hcfg
  have hen' : cfg'.enabled = true := hen
  have hrules : cfg'.rules = pre ++ r :: rest := rfl
  have h1 : evaluateRules segs cfg' ctx (pre ++ r :: rest) 0 = .ok res := by
    rw [evaluateRules_skip segs cfg' ctx (r :: rest) pre hpre 0]
    simp only [FlagCore.evaluateRules, hr, if_true, Nat.zero_add]
    exact ht
  simp [FlagCore.evaluate, hen', hrules, h1]
  intro hfalse
  simp [hen] at hfalse

/-- C3 witness: a flag carrying the same always-matching rule twice
serves the first rule's fixed variation with reason RULE_MATCH. -/
theorem first_match_wins_witness :
    evaluate [] flagTwoMatches ctxK = ⟨.str "on", some "on", 5, .RULE_MATCH⟩ :=
  first_match_wins [] flagTwoMatches ctxK [] ruleAlwaysOn
    ⟨.str "on", some "on", 5, .RULE_MATCH⟩ rfl (by simp) rfl rfl [ruleAlwaysOn]

/-- C4: a flag with enabled = false always returns its static default
value with reason FLAG_DISABLED, whatever its rules and rollout
specification are. -/
theorem disabled_flag_fail_open (segs : List Segment) (cfg : FlagConfiguration)
    (ctx : FlagCore.Context) (h : cfg.enabled = false) :
    evaluate segs cfg ctx = ⟨cfg.defaultValue, none, cfg.version, .FLAG_DISABLED⟩
    ∧ ∀ (rules : List Rule) (dr : Option (List (Variation × Nat))),
        evaluate segs { cfg with rules := rules, defaultRollout := dr } ctx
          = ⟨cfg.defaultValue, none, cfg.version, .FLAG_DISABLED⟩ := by
  constructor
  · simp [FlagCore.evaluate, h]
  · intro rules dr
    simp [FlagCore.evaluate, h]

/-- C4 witness: a concrete disabled flag with an always-matching rule
still returns its static default with FLAG_DISABLED. -/
theorem disabled_flag_fail_open_witness :
    evaluate [] ⟨"fd", false, .str "off", [ruleAlwaysOn], none, 3, 0⟩ ctxK
      = ⟨.str "off", none, 3, .FLAG_DISABLED⟩ :=
  (disabled_flag_fail_open [] ⟨"fd", false, .str "off", [ruleAlwaysOn], none, 3, 0⟩ ctxK rfl).1

/-- C6: on a FRESH entry at version n a change notification with version
v updates the version to v exactly when v is strictly greater than n and
leaves the entry unchanged otherwise; applying notifications [3, 1, 2]
to a FRESH entry at version 2 leaves it at version 3. -/
theorem cache_version_monotonic (n v : Nat) :
    (n < v → applyNotification (.FRESH n) v = .FRESH v)
    ∧ (v ≤ n → applyNotification (.FRESH n) v = .FRESH n)
    ∧ [3, 1, 2].foldl applyNotification (EntryState.FRESH 2) = .FRESH 3 := by
  refine ⟨fun h => ?_, fun h => ?_, by decide⟩
  · simp [FlagCore.applyNotification, h]
  · simp [FlagCore.applyNotification, Nat.not_lt.mpr h]

/-- C6 witness: a newer notification advances a FRESH entry, an older
one is ignored. -/
theorem cache_version_monotonic_witness :
    applyNotification (.FRESH 2) 5 = .FRESH 5
    ∧ applyNotification (.FRESH 3) 1 = .FRESH 3 :=
  ⟨(cache_version_monotonic 2 5).1 (by decide),
   (cache_version_monotonic 3 1).2.1 (by decide)⟩

/-- C5 counterexample: a configuration can contain a segment-reference
cycle (A references B and B references A) that no flag rule ever
reaches; evaluating a rule-free enabled flag over that store yields
reason DEFAULT, not ERROR, so the claim as stated over every
cycle-containing configuration is false. -/
theorem cycle_claim_counterexample :
    referencesSeg segA "B" = true
    ∧ referencesSeg segB "A" = true
    ∧ (evaluate cyclicStore flagNoRules ctxK).reason = .DEFAULT
    ∧ Reason.DEFAULT ≠ Reason.ERROR :=
  ⟨rfl, rfl, rfl, by decide⟩

/-- C5 (amended): resolution fails fast with a configuration error on an
already-visited segment key instead of recursing forever; any error in
the rule phase of an enabled flag is absorbed into the default-value /
ERROR result instead of raising; and a flag whose rule actually reaches
the A-B segment cycle evaluates to its default value with reason ERROR. -/
theorem cycle_fail_fast_error_result :
    (∀ (fuel : Nat) (segs : List Segment) (ctx : FlagCore.Context)
        (visited : List String) (segKey : String),
      visited.contains segKey = true →
      isMemberF (fuel + 1) segs ctx visited segKey = .error .configurationError)
    ∧ (∀ (segs : List Segment) (cfg : FlagConfiguration) (ctx : FlagCore.Context)
        (e : EvalError), cfg.enabled = true →
      evaluateRules segs cfg ctx cfg.rules 0 = .error e →
      evaluate segs cfg ctx = errorResult cfg)
    ∧ evaluate cyclicStore flagWithCycleRule ctxK = ⟨.str "off", none, 9, .ERROR⟩ := by
  refine ⟨?_, ?_, rfl⟩
  · intro fuel segs ctx visited segKey h
    simp [FlagCore.isMemberF, h]
    intro hn
    exact absurd (show segKey ∈ visited by simpa using h) hn
  · intro segs cfg ctx e hen he
    exact evaluate_absorbs_error segs cfg ctx e hen he

/-- C5 witness: fail-fast on a visited key and the absorbed cycle error
at concrete inputs. -/
theorem cycle_fail_fast_error_result_witness :
    isMemberF 1 [] ctxK ["A"] "A" = .error .configurationError
    ∧ evaluate cyclicStore flagWithCycleRule ctxK = errorResult flagWithCycleRule :=
  ⟨cycle_fail_fast_error_result.1 0 [] ctxK ["A"] "A" rfl,
   cycle_fail_fast_error_result.2.1 cyclicStore flagWithCycleRule ctxK
     .configurationError rfl rfl⟩

/-- C7: condition evaluation is total: every non-segment operator
evaluates to a Boolean, never an error; a missing context attribute
evaluates to non-match for every operator; an ordered comparison applied
to an attribute value with no numeric view evaluates to non-match; and a
rule matches exactly when every one of its conditions matches. -/
theorem condition_evaluation_total (resolve : String → Except EvalError Bool)
    (ctx : FlagCore.Context) (c : Condition) :
    (c.op ≠ .segmentMatch → ∃ b, condMatchesWith resolve ctx c = .ok b)
    ∧ (ctx.lookup c.attr = none → condMatchesWith resolve ctx c = .ok false)
    ∧ (∀ v : Value, (c.op = .greaterThan ∨ c.op = .lessThan) →
        ctx.lookup c.attr = some v → asNum v = none →
        condMatchesWith resolve ctx c = .ok false)
    ∧ (∀ (segs : List Segment) (r : Rule),
        ruleMatches segs ctx r = .ok true ↔
          ∀ c' ∈ r.conditions, flagCondEval segs ctx c' = .ok true) := by
  refine ⟨?_, ?_, ?_, ?_⟩
  · intro hop
    cases hlu : ctx.lookup c.attr with
    | none => exact ⟨false, by simp [FlagCore.condMatchesWith, hlu]⟩
    | some v =>
      refine ⟨pureOpMatch c.op v c.value, ?_⟩
      cases hc : c.op
      all_goals first
        | exact absurd hc hop
        | simp [FlagCore.condMatchesWith, hlu, hc]
  · intro hlu
    simp [FlagCore.condMatchesWith, hlu]
  · intro v hop hlu hnum
    rcases hop with h | h <;>
      simp [FlagCore.condMatchesWith, hlu, h, FlagCore.pureOpMatch, hnum]
  · intro segs r
    exact evalConds_ok_true_iff (flagCondEval segs ctx) r.conditions

/-- C7 witness: a missing attribute and a non-numeric ordered comparison
both evaluate to non-match at concrete inputs. -/
theorem condition_evaluation_total_witness :
    condMatchesWith (fun _ => .error .outOfFuel) ctxK ⟨"missing", .equals, .str "x"⟩ = .ok false
    ∧ condMatchesWith (fun _ => .error .outOfFuel) ⟨"u1", [("k", .boolean true)]⟩
        ⟨"k", .greaterThan, .num 3⟩ = .ok false :=
  ⟨(condition_evaluation_total (fun _ => .error .outOfFuel) ctxK
      ⟨"missing", .equals, .str "x"⟩).2.1 rfl,
   (condition_evaluation_total (fun _ => .error .outOfFuel) ⟨"u1", [("k", .boolean true)]⟩
      ⟨"k", .greaterThan, .num 3⟩).2.2.1 (.boolean true) (Or.inl rfl) rfl rfl⟩

/-- C8: every request handled by any of the four registered organization
routes receives HTTP status 300 (never a 2xx success). -/
theorem organization_routes_status_300 (r : Route)
    (hr : r ∈ organizationRouter) (req : Request) :
    (r.handler req).status = 300 := by
  simp only [organizationRouter, List.mem_cons, List.not_mem_nil, or_false] at hr
  rcases hr with rfl | rfl | rfl | rfl <;> rfl

/-- C8 witness: the list handler's response status at a concrete
request. -/
theorem organization_routes_status_300_witness :
    (listOrganizationsHandler ⟨[], ""⟩).status = 300 :=
  organization_routes_status_300 ⟨.get, orgBasePath, listOrganizationsHandler⟩
    (by simp [organizationRouter]) ⟨[], ""⟩

/-- C9: the organization router registers exactly the four routes
GET/POST/PATCH on /api/v1/organizations and GET on
/api/v1/organizations/:organizationId, and for every organizationId the
documented DELETE /api/v1/organizations/:organizationId and PATCH
/api/v1/organizations/:organizationId requests match none of them. -/
theorem organization_router_registered_routes :
    (organizationRouter.map fun r => (r.method, r.pattern))
      = [(.get, orgBasePath), (.post, orgBasePath),
         (.get, orgBasePath ++ [.param "organizationId"]), (.patch, orgBasePath)]
    ∧ (∀ orgId : String, ∀ r ∈ organizationRouter,
        routeMatches .delete ["api", "v1", "organizations", orgId] r = false)
    ∧ (∀ orgId : String, ∀ r ∈ organizationRouter,
        routeMatches .patch ["api", "v1", "organizations", orgId] r = false) := by
  refine ⟨rfl, ?_, ?_⟩ <;>
    · intro orgId r hr
      simp only [organizationRouter, List.mem_cons, List.not_mem_nil, or_false] at hr
      rcases hr with rfl | rfl | rfl | rfl <;> rfl

/-- C9 witness: the DELETE request for a concrete organization id does
not match the first registered route. -/
theorem organization_router_registered_routes_witness :
    routeMatches .delete ["api", "v1", "organizations", "org-1"]
      ⟨.get, orgBasePath, listOrganizationsHandler⟩ = false :=
  organization_router_registered_routes.2.1 "org-1"
    ⟨.get, orgBasePath, listOrganizationsHandler⟩ (by simp [organizationRouter])

/-- C10: every organization route handler is deterministic in the
organizationId path parameter alone: two requests agreeing on that
parameter (whatever their bodies or other parameters) get identical
responses; the by-id handler's body is the placeholder string followed
by the organizationId, and the other three handlers are constant. -/
theorem organization_handlers_deterministic :
    (∀ r ∈ organizationRouter, ∀ req1 req2 : Request,
        req1.param "organizationId" = req2.param "organizationId" →
        r.handler req1 = r.handler req2)
    ∧ (∀ req : Request,
        getOrganizationByIdHandler req
          = ⟨300, "API underconstruction " ++ req.param "organizationId"⟩)
    ∧ (∀ req1 req2 : Request,
        listOrganizationsHandler req1 = listOrganizationsHandler req2
        ∧ createOrganizationHandler req1 = createOrganizationHandler req2
        ∧ updateOrganizationHandler req1 = updateOrganizationHandler req2) := by
  refine ⟨?_, fun req => rfl, fun req1 req2 => ⟨rfl, rfl, rfl⟩⟩
  intro r hr req1 req2 h
  simp only [organizationRouter, List.mem_cons, List.not_mem_nil, or_false] at hr
  rcases hr with rfl | rfl | rfl | rfl
  · rfl
  · rfl
  · show getOrganizationByIdHandler req1 = getOrganizationByIdHandler req2
    simp [OrgRouter.getOrganizationByIdHandler, h]
  · rfl

/-- C10 witness: the by-id handler gives identical responses to two
requests with the same organizationId but different bodies. -/
theorem organization_handlers_deterministic_witness :
    getOrganizationByIdHandler ⟨[("organizationId", "o1")], "body-a"⟩
      = getOrganizationByIdHandler ⟨[("organizationId", "o1")], "body-b"⟩ :=
  organization_handlers_deterministic.1
    ⟨.get, orgBasePath ++ [.param "organizationId"], getOrganizationByIdHandler⟩
    (by simp [organizationRouter])
    ⟨[("organizationId", "o1")], "body-a"⟩
    ⟨[("organizationId", "o1")], "body-b"⟩ rfl
